import Mathlib

/-!
Shallow embedding of the MCQ admin dashboard (a React/TypeScript single-page
application) and proofs about the behaviour of its question form, its
classification cascade, its feedback view and its HTTP plumbing.

The embedding translates the TypeScript sources:
* `src/pages/Questions.tsx`, the shared `QuestionForm` component and the
  `QuestionEditModal` component (question form state, validation, payload
  construction, classification selects, preserved-chapter option, unit fetch);
* `src/App.tsx` (`FeedbackList` filtering/sorting, `updateStatus`, the axios
  request interceptor).

JavaScript strings become `String`; JavaScript string truthiness (`if (s)`)
becomes `s ≠ ""`; a field deleted from a payload object becomes an
`Option String` that is `none`; `new Date(createdAt).getTime()` becomes an
`Int` field holding the parsed epoch-millisecond value.
-/

/-- Embeds the TypeScript interface `BilingualText` (`{ en, hi }`). -/
structure BilingualText where
  en : String
  hi : String
deriving DecidableEq

/-- Embeds the TypeScript interface `Option` (an answer option with a stable
key letter and bilingual text); renamed because `Option` is taken in Lean. -/
structure QOption where
  text : BilingualText
  key : String
deriving DecidableEq

/-- Embeds the TypeScript interface `Chapter` (`{ _id, name }`). -/
structure Chapter where
  _id : String
  name : BilingualText
deriving DecidableEq

/-- Embeds the TypeScript interface `Unit` (`{ unitId, name, chapters }`);
renamed because `Unit` is taken in Lean. -/
structure CUnit where
  unitId : String
  name : BilingualText
  chapters : List Chapter
deriving DecidableEq

/-- Embeds the question form state `formData` (the `initialFormState` shape
shared by `Questions.tsx`, `QuestionForm` and `QuestionEditModal`). -/
structure FormState where
  questionNumber : Nat
  questionText : BilingualText
  options : List QOption
  correctOptionKey : String
  explanation : BilingualText
  subjectId : String
  unitId : String
  chapterId : String
  difficulty : String
  status : String
deriving DecidableEq

/-- Embeds the constant `initialFormState`. -/
def initialFormState : FormState :=
  { questionNumber := 1
    questionText := { en := "", hi := "" }
    options :=
      [ { text := { en := "", hi := "" }, key := "A" }
      , { text := { en := "", hi := "" }, key := "B" }
      , { text := { en := "", hi := "" }, key := "C" }
      , { text := { en := "", hi := "" }, key := "D" } ]
    correctOptionKey := "A"
    explanation := { en := "", hi := "" }
    subjectId := ""
    unitId := ""
    chapterId := ""
    difficulty := "medium"
    status := "active" }

/-- Embeds the payload object built in `handleSave`:
`const payload = { ...formData }; if (!payload.unitId) delete payload.unitId;
if (!payload.chapterId) delete payload.chapterId;`.  The two deletable id
fields are `Option String` (`none` models the deleted key). -/
structure Payload where
  questionNumber : Nat
  questionText : BilingualText
  options : List QOption
  correctOptionKey : String
  explanation : BilingualText
  subjectId : String
  unitId : Option String
  chapterId : Option String
  difficulty : String
  status : String
deriving DecidableEq

/-- Builds the cleaned payload from the form state, exactly as `handleSave`
spreads `formData` and then deletes `unitId` / `chapterId` when they are
falsy (empty string). -/
def buildPayload (f : FormState) : Payload :=
  { questionNumber := f.questionNumber
    questionText := f.questionText
    options := f.options
    correctOptionKey := f.correctOptionKey
    explanation := f.explanation
    subjectId := f.subjectId
    unitId := if f.unitId = "" then none else some f.unitId
    chapterId := if f.chapterId = "" then none else some f.chapterId
    difficulty := f.difficulty
    status := f.status }

/-- Outcome of `handleSave`: either the client-side validation returns early
(no network call at all), or exactly one network call is dispatched — a
`POST /questions` create, or a `PATCH /questions/:id` update. -/
inductive SaveAction where
  | rejected
  | create (payload : Payload)
  | update (id : String) (payload : Payload)
deriving DecidableEq

/-- Embeds `handleSave` (identical validation/payload/dispatch logic in
`Questions.tsx`, `QuestionForm` and `QuestionEditModal`).  `editingId` is the
bound question identifier (`editingId` state, `questionId` prop, or
`initialData._id`); `none` means the form is in creation mode.  The source:
`if (!formData.questionText.en && !formData.questionText.hi) ... return;`
`if (!formData.subjectId) ... return;` then build the payload and dispatch
`patch` when an id is bound, else `post`. -/
def handleSave (editingId : Option String) (f : FormState) : SaveAction :=
  if f.questionText.en = "" ∧ f.questionText.hi = "" then SaveAction.rejected
  else if f.subjectId = "" then SaveAction.rejected
  else
    match editingId with
    | some id => SaveAction.update id (buildPayload f)
    | none => SaveAction.create (buildPayload f)

/-- Embeds the subject select handler
`onChange={e => setFormData({...formData, subjectId: e.target.value, unitId: '', chapterId: ''})}`. -/
def selectSubject (f : FormState) (v : String) : FormState :=
  { f with subjectId := v, unitId := "", chapterId := "" }

/-- Embeds the unit select handler
`onChange={e => setFormData({...formData, unitId: e.target.value, chapterId: ''})}`. -/
def selectUnit (f : FormState) (v : String) : FormState :=
  { f with unitId := v, chapterId := "" }

/-- C1: if both `questionText.en` and `questionText.hi` are empty, or
`subjectId` is empty, `handleSave` rejects client-side and dispatches no
network call; conversely, with `questionText.hi` non-empty, `questionText.en`
empty and `subjectId` non-empty, and no question identifier bound, a create
call is issued with the cleaned payload. -/
theorem handleSave_validation :
    (∀ (eid : Option String) (f : FormState),
       f.questionText.en = "" → f.questionText.hi = "" →
       handleSave eid f = SaveAction.rejected) ∧
    (∀ (eid : Option String) (f : FormState),
       f.subjectId = "" → handleSave eid f = SaveAction.rejected) ∧
    (∀ (f : FormState),
       f.questionText.en = "" → f.questionText.hi ≠ "" → f.subjectId ≠ "" →
       handleSave none f = SaveAction.create (buildPayload f)) := by
  refine ⟨?_, ?_, ?_⟩
  · intro eid f hen hhi
    unfold handleSave
    rw [if_pos ⟨hen, hhi⟩]
  · intro eid f hsub
    unfold handleSave
    by_cases htext : f.questionText.en = "" ∧ f.questionText.hi = ""
    · rw [if_pos htext]
    · rw [if_neg htext, if_pos hsub]
  · intro f hen hhi hsub
    unfold handleSave
    rw [if_neg (by rintro ⟨-, h⟩; exact hhi h), if_neg hsub]

/-- Concrete instantiation of `handleSave_validation`: the Hindi-only create
scenario from the specification. -/
theorem handleSave_validation_witness :
    handleSave none
      { initialFormState with
          questionText := { en := "", hi := "प्रश्न" }, subjectId := "S1" }
      = SaveAction.create (buildPayload
          { initialFormState with
              questionText := { en := "", hi := "प्रश्न" }, subjectId := "S1" }) :=
  handleSave_validation.2.2
    { initialFormState with
        questionText := { en := "", hi := "प्रश्न" }, subjectId := "S1" }
    rfl (by decide) (by decide)

/-- C2: whenever `handleSave` dispatches a create or an update, the submitted
payload omits `unitId` when the form's `unitId` is the empty string and omits
`chapterId` when the form's `chapterId` is the empty string (the ids are
deleted, never sent as empty strings), carries the non-empty ids verbatim,
and carries every other form field unchanged. -/
theorem handleSave_payload_strips_empty_ids :
    ∀ (eid : Option String) (f : FormState) (p : Payload),
      (handleSave eid f = SaveAction.create p ∨
        ∃ id, handleSave eid f = SaveAction.update id p) →
      (f.unitId = "" → p.unitId = none) ∧
      (f.unitId ≠ "" → p.unitId = some f.unitId) ∧
      (f.chapterId = "" → p.chapterId = none) ∧
      (f.chapterId ≠ "" → p.chapterId = some f.chapterId) ∧
      p.questionNumber = f.questionNumber ∧
      p.questionText = f.questionText ∧
      p.options = f.options ∧
      p.correctOptionKey = f.correctOptionKey ∧
      p.explanation = f.explanation ∧
      p.subjectId = f.subjectId ∧
      p.difficulty = f.difficulty ∧
      p.status = f.status := by
  intro eid f p h
  have hp : p = buildPayload f := by
    unfold handleSave at h
    rcases h with h | ⟨id, h⟩ <;>
    · split at h
      · cases h
      · split at h
        · cases h
        · cases eid <;> simp_all
  subst hp
  refine ⟨?_, ?_, ?_, ?_, rfl, rfl, rfl, rfl, rfl, rfl, rfl, rfl⟩
  · intro hu; simp [buildPayload, hu]
  · intro hu; simp [buildPayload, hu]
  · intro hc; simp [buildPayload, hc]
  · intro hc; simp [buildPayload, hc]

/-- Concrete instantiation of `handleSave_payload_strips_empty_ids`: a valid
form with empty `unitId` and non-empty `chapterId` yields a payload with no
`unitId` key and the `chapterId` carried verbatim. -/
theorem handleSave_payload_strips_empty_ids_witness :
    (buildPayload
      { initialFormState with
          questionText := { en := "Q", hi := "" },
          subjectId := "S1", unitId := "", chapterId := "C7" }).unitId = none ∧
    (buildPayload
      { initialFormState with
          questionText := { en := "Q", hi := "" },
          subjectId := "S1", unitId := "", chapterId := "C7" }).chapterId = some "C7" := by
  have h := handleSave_payload_strips_empty_ids none
    { initialFormState with
        questionText := { en := "Q", hi := "" },
        subjectId := "S1", unitId := "", chapterId := "C7" }
    (buildPayload
      { initialFormState with
          questionText := { en := "Q", hi := "" },
          subjectId := "S1", unitId := "", chapterId := "C7" })
    (Or.inl (by decide))
  exact ⟨h.1 rfl, h.2.2.2.1 (by decide)⟩

/-- C3: selecting a subject (any value, including the empty one) resets
`unitId` and `chapterId` to the empty string and changes no other field
besides `subjectId`; selecting a unit resets `chapterId` to the empty string
and changes no other field besides `unitId`. -/
theorem selection_resets_dependents :
    ∀ (f : FormState) (v : String),
      (selectSubject f v).subjectId = v ∧
      (selectSubject f v).unitId = "" ∧
      (selectSubject f v).chapterId = "" ∧
      (selectSubject f v).questionNumber = f.questionNumber ∧
      (selectSubject f v).questionText = f.questionText ∧
      (selectSubject f v).options = f.options ∧
      (selectSubject f v).correctOptionKey = f.correctOptionKey ∧
      (selectSubject f v).explanation = f.explanation ∧
      (selectSubject f v).difficulty = f.difficulty ∧
      (selectSubject f v).status = f.status ∧
      (selectUnit f v).unitId = v ∧
      (selectUnit f v).chapterId = "" ∧
      (selectUnit f v).subjectId = f.subjectId ∧
      (selectUnit f v).questionNumber = f.questionNumber ∧
      (selectUnit f v).questionText = f.questionText ∧
      (selectUnit f v).options = f.options ∧
      (selectUnit f v).correctOptionKey = f.correctOptionKey ∧
      (selectUnit f v).explanation = f.explanation ∧
      (selectUnit f v).difficulty = f.difficulty ∧
      (selectUnit f v).status = f.status :=
  fun _ _ =>
    ⟨rfl, rfl, rfl, rfl, rfl, rfl, rfl, rfl, rfl, rfl,
     rfl, rfl, rfl, rfl, rfl, rfl, rfl, rfl, rfl, rfl⟩

/-- Embeds `getAvailableChapters`:
`const selectedUnit = units.find(u => u.unitId === formData.unitId);
return selectedUnit ? selectedUnit.chapters : [];`. -/
def getAvailableChapters (units : List CUnit) (f : FormState) : List Chapter :=
  match units.find? (fun u => u.unitId == f.unitId) with
  | some u => u.chapters
  | none => []

/-- Embeds the render condition of the synthetic preserved-chapter option in
the chapter select of `QuestionForm` and `QuestionEditModal`:
`formData.chapterId && !getAvailableChapters().find(c => c._id === formData.chapterId)`. -/
def showsPreservedOption (units : List CUnit) (f : FormState) : Bool :=
  (f.chapterId != "") &&
    ((getAvailableChapters units f).find? (fun c => c._id == f.chapterId)).isNone

/-- Checks whether `needle` occurs at the start of `hay`
(character-by-character comparison). -/
def matchesAt : List Char → List Char → Bool
  | [], _ => true
  | _ :: _, [] => false
  | a :: as, b :: bs => a == b && matchesAt as bs

/-- Checks whether `needle` occurs anywhere inside `hay`. -/
def containsSub : List Char → List Char → Bool
  | hay, needle =>
    match hay with
    | [] => needle.isEmpty
    | _ :: t => matchesAt needle hay || containsSub t needle

/-- Embeds the label of a regular chapter option, `{c.name?.en || 'Chapter'}`
(identical JSX in `QuestionForm` and `QuestionEditModal`). -/
def chapterLabel (c : Chapter) : String :=
  if c.name.en ≠ "" then c.name.en else "Chapter"

/-- Embeds the label of the synthetic preserved option in
`QuestionEditModal`: the constant JSX text `Unknown Chapter (Preserved) *`. -/
def modalPreservedLabel : String := "Unknown Chapter (Preserved) *"

/-- Embeds the label of the synthetic preserved option in the full-page
`QuestionForm` variant:
`{originalQuestion?.chapterName || 'Unknown Chapter (Preserved)'} *`.
`origChapterName` is the denormalized `chapterName` of the loaded question
record; a missing record or absent field collapses to the empty string,
which the JavaScript `||` treats identically. -/
def formPreservedLabel (origChapterName : String) : String :=
  (if origChapterName ≠ "" then origChapterName else "Unknown Chapter (Preserved)") ++ " *"

/-- Option entries `(value, label)` rendered inside the chapter select of
`QuestionEditModal`, in render order: the empty "Select Chapter" option, one
option per available chapter, and — exactly when the preserved-option
condition holds — the synthetic option carrying `formData.chapterId`. -/
def modalChapterOptions (units : List CUnit) (f : FormState) : List (String × String) :=
  ("", "Select Chapter") :: (getAvailableChapters units f).map (fun c => (c._id, chapterLabel c))
    ++ (if showsPreservedOption units f then [(f.chapterId, modalPreservedLabel)] else [])

/-- Option entries `(value, label)` rendered inside the chapter select of the
full-page `QuestionForm` variant; same structure as the modal, but the
synthetic option is labeled from the loaded record's `chapterName`. -/
def formChapterOptions (units : List CUnit) (f : FormState)
    (origChapterName : String) : List (String × String) :=
  ("", "Select Chapter") :: (getAvailableChapters units f).map (fun c => (c._id, chapterLabel c))
    ++ (if showsPreservedOption units f then
          [(f.chapterId, formPreservedLabel origChapterName)] else [])

/-- C4 (amended): the synthetic preserved option is rendered exactly when
`chapterId` is non-empty and matches no chapter in the currently available
list; when rendered its value is that `chapterId` in both variants, its label
in the modal variant is the constant `Unknown Chapter (Preserved) *`, and its
label in the full-page variant is the loaded record's `chapterName` suffixed
with ` *` when a name is available, else `Unknown Chapter (Preserved) *`;
when the condition fails, both selects hold only the empty option and the
available chapters. -/
theorem preserved_chapter_option_rendering (units : List CUnit) (f : FormState)
    (origChapterName : String) :
    (showsPreservedOption units f = true ↔
      (f.chapterId ≠ "" ∧ ∀ c ∈ getAvailableChapters units f, c._id ≠ f.chapterId)) ∧
    (showsPreservedOption units f = true →
      (f.chapterId, modalPreservedLabel) ∈ modalChapterOptions units f ∧
      (f.chapterId, formPreservedLabel origChapterName) ∈
        formChapterOptions units f origChapterName) ∧
    (showsPreservedOption units f = false →
      modalChapterOptions units f =
        ("", "Select Chapter") ::
          (getAvailableChapters units f).map (fun c => (c._id, chapterLabel c)) ∧
      formChapterOptions units f origChapterName =
        ("", "Select Chapter") ::
          (getAvailableChapters units f).map (fun c => (c._id, chapterLabel c))) ∧
    (origChapterName ≠ "" →
      formPreservedLabel origChapterName = origChapterName ++ " *") ∧
    (origChapterName = "" →
      formPreservedLabel origChapterName = "Unknown Chapter (Preserved) *") ∧
    modalPreservedLabel = "Unknown Chapter (Preserved) *" := by
  refine ⟨?_, ?_, ?_, ?_, ?_, rfl⟩
  · unfold showsPreservedOption
    rw [Bool.and_eq_true, bne_iff_ne, Option.isNone_iff_eq_none, List.find?_eq_none]
    constructor
    · rintro ⟨h1, h2⟩
      exact ⟨h1, fun c hc => by simpa using h2 c hc⟩
    · rintro ⟨h1, h2⟩
      exact ⟨h1, fun c hc => by simpa using h2 c hc⟩
  · intro h
    constructor
    · unfold modalChapterOptions
      rw [h]
      simp
    · unfold formChapterOptions
      rw [h]
      simp
  · intro h
    constructor
    · unfold modalChapterOptions
      rw [h]
      simp
    · unfold formChapterOptions
      rw [h]
      simp
  · intro h
    unfold formPreservedLabel
    rw [if_pos h]
  · intro h
    unfold formPreservedLabel
    rw [if_neg (fun hne => hne h)]
    decide

/-- Concrete unit used to instantiate the preserved-chapter and unit-fetch
theorems: one unit with a single chapter `C1`. -/
def unitU1 : CUnit :=
  { unitId := "U1"
    name := { en := "Unit One", hi := "इकाई एक" }
    chapters := [{ _id := "C1", name := { en := "Chapter One", hi := "अध्याय एक" } }] }

/-- Concrete form state bound to unit `U1` whose stored `chapterId` `C9`
resolves against no available chapter. -/
def fDangling : FormState :=
  { initialFormState with subjectId := "S1", unitId := "U1", chapterId := "C9" }

/-- C4 counterexample: in the full-page `QuestionForm` variant, when the
loaded record carries the denormalized chapter name `Algebra`, the synthetic
option rendered for the dangling `chapterId` `C9` is labeled `Algebra *` —
a label containing neither `Preserved` nor `Unknown`, so the claim that the
synthetic option's label marks it as preserved/unknown fails at this input
(only the modal variant's constant label carries that wording). -/
theorem preserved_chapter_label_counterexample :
    showsPreservedOption [unitU1] fDangling = true ∧
    (fDangling.chapterId, "Algebra *") ∈ formChapterOptions [unitU1] fDangling "Algebra" ∧
    containsSub "Algebra *".data "Preserved".data = false ∧
    containsSub "Algebra *".data "Unknown".data = false ∧
    containsSub modalPreservedLabel.data "Preserved".data = true := by
  decide

/-- Concrete instantiation of `preserved_chapter_option_rendering`: the
dangling `chapterId` `C9` is rendered with its value intact in both variants,
with the constant preserved label in the modal and the default preserved
label in the full-page form when no chapter name is available. -/
theorem preserved_chapter_option_rendering_witness :
    (fDangling.chapterId, modalPreservedLabel) ∈ modalChapterOptions [unitU1] fDangling ∧
    (fDangling.chapterId, formPreservedLabel "") ∈ formChapterOptions [unitU1] fDangling "" :=
  (preserved_chapter_option_rendering [unitU1] fDangling "").2.1 (by decide)

/-- Embeds the possible shapes of `fb.userId` in a feedback record: a
populated user object (with possibly-absent `name` / `gmail`, collapsed to the
empty string, which the code treats identically), a plain id string, or a
missing reference. -/
inductive UserRef where
  | obj (name gmail : String)
  | str (s : String)
  | missing
deriving DecidableEq

/-- Embeds the possible shapes of `fb.questionId`: a populated question
object, a plain id string, or a missing reference. -/
inductive QuestionRef where
  | obj (_id : String) (questionText : BilingualText)
  | str (s : String)
  | missing
deriving DecidableEq

/-- Embeds the TypeScript interface `Feedback` from `App.tsx`.  `createdAt`
holds the parsed epoch-millisecond value `new Date(createdAt).getTime()`. -/
structure Feedback where
  _id : String
  userId : UserRef
  questionId : QuestionRef
  feedback : String
  status : String
  createdAt : Int
deriving DecidableEq

/-- Embeds the filter state of `FeedbackList` (`filters`). -/
structure Filters where
  userName : String
  questionText : String
  feedbackText : String
  status : String
deriving DecidableEq

/-- Embeds the JavaScript test
`hay.toLowerCase().includes(needle.toLowerCase())`; lower-casing is applied
character by character (the same traversal `String.toLower` performs). -/
def includesCI (hay needle : String) : Bool :=
  containsSub (hay.data.map Char.toLower) (needle.data.map Char.toLower)

/-- Embeds the user-name derivation
`fb.userId?.name || fb.userId?.gmail || (typeof fb.userId === 'string' ? fb.userId : '')`. -/
def userNameOf (fb : Feedback) : String :=
  match fb.userId with
  | UserRef.obj name gmail => if name ≠ "" then name else if gmail ≠ "" then gmail else ""
  | UserRef.str s => s
  | UserRef.missing => ""

/-- Embeds `fb.questionId?.questionText?.en || ''`. -/
def questionEnOf (fb : Feedback) : String :=
  match fb.questionId with
  | QuestionRef.obj _ qt => qt.en
  | _ => ""

/-- Embeds `fb.questionId?.questionText?.hi || ''`. -/
def questionHiOf (fb : Feedback) : String :=
  match fb.questionId with
  | QuestionRef.obj _ qt => qt.hi
  | _ => ""

/-- Embeds the early-return predicate of `filteredFeedbacks` in `App.tsx`:
status filter, user-name filter, bilingual question-text filter and
feedback-text filter, each skipped when its filter string is empty, all
conjoined. -/
def feedbackMatches (filters : Filters) (fb : Feedback) : Bool :=
  if filters.status ≠ "" ∧ filters.status ≠ "all" ∧ fb.status ≠ filters.status then
    false
  else if filters.userName ≠ "" ∧ includesCI (userNameOf fb) filters.userName = false then
    false
  else if filters.questionText ≠ "" ∧
      includesCI (questionEnOf fb) filters.questionText = false ∧
      includesCI (questionHiOf fb) filters.questionText = false then
    false
  else if filters.feedbackText ≠ "" ∧ includesCI fb.feedback filters.feedbackText = false then
    false
  else
    true

/-- Comparator of the final `.sort((a, b) => new Date(b.createdAt).getTime()
- new Date(a.createdAt).getTime())`: `a` may stay before `b` exactly when the
comparator is non-positive, i.e. `b.createdAt ≤ a.createdAt`. -/
def feedbackLE (a b : Feedback) : Bool :=
  decide (b.createdAt ≤ a.createdAt)

/-- Embeds `filteredFeedbacks`: filter the fetched collection with
`feedbackMatches`, then sort newest-created first. -/
def filteredFeedbacks (filters : Filters) (l : List Feedback) : List Feedback :=
  (l.filter (feedbackMatches filters)).mergeSort feedbackLE

/-- Membership in the displayed feedback list is membership in the fetched
collection together with the filter predicate (sorting permutes, never adds
or removes). -/
theorem mem_filteredFeedbacks (filters : Filters) (l : List Feedback) (fb : Feedback) :
    fb ∈ filteredFeedbacks filters l ↔ fb ∈ l ∧ feedbackMatches filters fb = true := by
  unfold filteredFeedbacks
  rw [List.mem_mergeSort, List.mem_filter]

/-- C5: with the status filter set to `pending`, every displayed feedback
item has status `pending` whatever the other filters hold; and with the
status filter `pending` and a non-empty user-name filter (the other text
filters empty), an item is displayed exactly when its status is `pending`
AND its derived user name contains the filter text case-insensitively. -/
theorem filteredFeedbacks_pending_and_name :
    (∀ (filters : Filters) (l : List Feedback) (fb : Feedback),
       filters.status = "pending" → fb ∈ filteredFeedbacks filters l →
       fb.status = "pending") ∧
    (∀ (u : String) (l : List Feedback) (fb : Feedback), u ≠ "" →
       (fb ∈ filteredFeedbacks
          { userName := u, questionText := "", feedbackText := "", status := "pending" } l ↔
        fb ∈ l ∧ fb.status = "pending" ∧ includesCI (userNameOf fb) u = true)) := by
  constructor
  · intro filters l fb hst hmem
    have hmatch := ((mem_filteredFeedbacks filters l fb).mp hmem).2
    unfold feedbackMatches at hmatch
    split at hmatch
    · exact absurd hmatch (by simp)
    · rename_i hcond
      push_neg at hcond
      have h := hcond (by rw [hst]; decide) (by rw [hst]; decide)
      rw [hst] at h
      exact h
  · intro u l fb hu
    rw [mem_filteredFeedbacks]
    have hm : feedbackMatches
        { userName := u, questionText := "", feedbackText := "", status := "pending" } fb = true ↔
        (fb.status = "pending" ∧ includesCI (userNameOf fb) u = true) := by
      unfold feedbackMatches
      by_cases h1 : fb.status = "pending"
      · by_cases h2 : includesCI (userNameOf fb) u = true
        · simp [h1, h2]
        · rw [Bool.not_eq_true] at h2
          simp [h1, h2, hu]
      · simp [h1]
    rw [hm]

/-- Concrete pending feedback record used to instantiate the feedback-view
theorems. -/
def fbPending : Feedback :=
  { _id := "F1"
    userId := UserRef.obj "Asha" "asha@example.com"
    questionId := QuestionRef.str "Q1"
    feedback := "Wrong answer key"
    status := "pending"
    createdAt := 1700000000000 }

/-- Concrete resolved feedback record used to instantiate the feedback-view
theorems. -/
def fbResolved : Feedback :=
  { _id := "F2"
    userId := UserRef.str "U2"
    questionId := QuestionRef.missing
    feedback := "Typo in Hindi text"
    status := "resolved"
    createdAt := 1600000000000 }

/-- Concrete instantiation of `filteredFeedbacks_pending_and_name`: with
status filter `pending` and user-name filter `ash`, the pending record of
user `Asha` is displayed. -/
theorem filteredFeedbacks_pending_and_name_witness :
    fbPending ∈ filteredFeedbacks
      { userName := "ash", questionText := "", feedbackText := "", status := "pending" }
      [fbPending, fbResolved] :=
  (filteredFeedbacks_pending_and_name.2 "ash" [fbPending, fbResolved] fbPending
    (by decide)).mpr ⟨by decide, by decide, by decide⟩

/-- C6: whatever order the feedback collection arrives in, the displayed list
is sorted by creation time descending (newest first) after filtering. -/
theorem filteredFeedbacks_sorted_desc (filters : Filters) (l : List Feedback) :
    (filteredFeedbacks filters l).Pairwise (fun a b => b.createdAt ≤ a.createdAt) := by
  have htrans : ∀ (a b c : Feedback), feedbackLE a b → feedbackLE b c → feedbackLE a c := by
    intro a b c hab hbc
    simp only [feedbackLE, decide_eq_true_eq] at *
    omega
  have htotal : ∀ (a b : Feedback), feedbackLE a b || feedbackLE b a := by
    intro a b
    simp only [feedbackLE, Bool.or_eq_true, decide_eq_true_eq]
    omega
  have h := List.sorted_mergeSort htrans htotal (l.filter (feedbackMatches filters))
  exact h.imp (fun hab => by simpa [feedbackLE] using hab)

/-- Embeds the action column of the feedback table: the `Resolve` and
`Ignore` buttons (dispatching `updateStatus(fb._id, 'resolved')` and
`updateStatus(fb._id, 'ignored')`) are rendered only when
`fb.status === 'pending'`; every other status renders no action. -/
def actionTargets (fb : Feedback) : List String :=
  if fb.status == "pending" then ["resolved", "ignored"] else []

/-- C7: a status-change action is exposed only on items whose current status
is `pending`, and the only target statuses ever issued are `resolved` and
`ignored`; items in any other status expose no transition. -/
theorem feedback_actions_only_pending :
    (∀ (fb : Feedback) (s : String), s ∈ actionTargets fb →
       fb.status = "pending" ∧ (s = "resolved" ∨ s = "ignored")) ∧
    (∀ (fb : Feedback), fb.status ≠ "pending" → actionTargets fb = []) := by
  constructor
  · intro fb s hs
    unfold actionTargets at hs
    split at hs
    · rename_i h
      refine ⟨by simpa using h, ?_⟩
      simpa using hs
    · simp at hs
  · intro fb h
    unfold actionTargets
    rw [if_neg (by simpa using h)]

/-- Concrete instantiation of `feedback_actions_only_pending`: the `Resolve`
button on a pending item targets `resolved`, and a resolved item exposes no
action. -/
theorem feedback_actions_only_pending_witness :
    (fbPending.status = "pending" ∧ ("resolved" = "resolved" ∨ "resolved" = "ignored")) ∧
    actionTargets fbResolved = [] :=
  ⟨feedback_actions_only_pending.1 fbPending "resolved" (by decide),
   feedback_actions_only_pending.2 fbResolved (by decide)⟩

/-- Embeds the axios request config as far as the interceptor touches it:
the request URL and the `Authorization` header (absent is `none`). -/
structure RequestConfig where
  url : String
  authorization : Option String
deriving DecidableEq

/-- Embeds the request interceptor of `App.tsx`:
`const token = localStorage.getItem('admin_token');
if (token) { config.headers.Authorization = `Bearer ${token}`; }
return config;`.
`storedToken` is the value in persistent browser storage (`none` when the
key is absent); the JavaScript truthiness guard skips `null` and the empty
string alike. -/
def interceptRequest (storedToken : Option String) (config : RequestConfig) : RequestConfig :=
  match storedToken with
  | some token =>
      if token ≠ "" then { config with authorization := some ("Bearer " ++ token) }
      else config
  | none => config

/-- C8 counterexample: with no token in storage (e.g. before login) the
interceptor returns the request with no `Authorization` header at all, so it
is not the case that every outgoing request carries a bearer token. -/
theorem interceptRequest_no_token_counterexample :
    (interceptRequest none { url := "/admin/login", authorization := none }).authorization
      = none := rfl

/-- C8 (amended): whenever persistent storage holds a non-empty token `t`,
the interceptor attaches `Authorization: Bearer t` to the outgoing request;
when storage holds no token, or holds the empty string (both falsy to the
JavaScript guard), the request passes through unchanged. -/
theorem interceptRequest_attaches_bearer :
    (∀ (t : String) (config : RequestConfig), t ≠ "" →
       (interceptRequest (some t) config).authorization = some ("Bearer " ++ t)) ∧
    (∀ (config : RequestConfig), interceptRequest none config = config) ∧
    (∀ (config : RequestConfig), interceptRequest (some "") config = config) := by
  refine ⟨?_, ?_, ?_⟩
  · intro t config ht
    have hred : interceptRequest (some t) config =
        if t ≠ "" then { config with authorization := some ("Bearer " ++ t) } else config := rfl
    rw [hred, if_pos ht]
  · intro config
    rfl
  · intro config
    have hred : interceptRequest (some "") config =
        if ("" : String) ≠ "" then
          { config with authorization := some ("Bearer " ++ "") } else config := rfl
    rw [hred, if_neg (fun h => h rfl)]

/-- Concrete instantiation of `interceptRequest_attaches_bearer`: a stats
request with token `tok123` in storage goes out with `Bearer tok123`. -/
theorem interceptRequest_attaches_bearer_witness :
    (interceptRequest (some "tok123")
      { url := "/admin/stats", authorization := none }).authorization
      = some ("Bearer " ++ "tok123") :=
  interceptRequest_attaches_bearer.1 "tok123"
    { url := "/admin/stats", authorization := none } (by decide)

/-- Result of the `POST /questions/subjects/units` call awaited inside
`fetchUnits`: the unit list from the response (`res.data.units || []`), or a
network failure with its error message. -/
inductive UnitsFetchResult where
  | success (units : List CUnit)
  | failure (err : String)
deriving DecidableEq

/-- Observable outcome of running `fetchUnits`: the `units` state afterwards
(given the state it held before), the console-error log entries emitted, and
the number of network requests issued. -/
structure UnitsFetchOutcome where
  units : List CUnit
  logs : List String
  requests : Nat
deriving DecidableEq

/-- Embeds `fetchUnits` (identical in `Questions.tsx`, `QuestionForm` and
`QuestionEditModal`): one request is issued; on success the `units` state is
replaced by the response list; on failure the catch block only logs
(`console.error('Error fetching units:', err)`) — it does not retry and does
not touch the `units` state, which keeps its previous value `prev`. -/
def fetchUnits (prev : List CUnit) (result : UnitsFetchResult) : UnitsFetchOutcome :=
  match result with
  | UnitsFetchResult.success us => { units := us, logs := [], requests := 1 }
  | UnitsFetchResult.failure e =>
      { units := prev, logs := ["Error fetching units: " ++ e], requests := 1 }

/-- Embeds the subject-change effect
`useEffect(() => { if (formData.subjectId) { fetchUnits(formData.subjectId); }
else { setUnits([]); } }, [formData.subjectId])`: selecting the empty subject
clears the unit list without a request; selecting a real subject runs
`fetchUnits` against the previous unit list. -/
def unitsAfterSubjectChange (prev : List CUnit) (newSubjectId : String)
    (result : UnitsFetchResult) : UnitsFetchOutcome :=
  if newSubjectId = "" then { units := [], logs := [], requests := 0 }
  else fetchUnits prev result

/-- C9 counterexample: selecting subject `S2` while the unit list still holds
the previous subject's unit, with the fetch failing, leaves that stale unit
in place — the resulting unit list state is not empty. -/
theorem fetchUnits_failure_counterexample :
    (unitsAfterSubjectChange [unitU1] "S2"
      (UnitsFetchResult.failure "Network Error")).units ≠ [] := by
  decide

/-- C9 (amended): when a subject selection's unit fetch fails, the failure is
logged, exactly one request was issued (no retry), and the unit list state is
left unchanged from its previous value — hence empty only when it was already
empty before the selection. -/
theorem fetchUnits_failure_no_retry :
    ∀ (prev : List CUnit) (s e : String), s ≠ "" →
      (unitsAfterSubjectChange prev s (UnitsFetchResult.failure e)).units = prev ∧
      (unitsAfterSubjectChange prev s (UnitsFetchResult.failure e)).logs ≠ [] ∧
      (unitsAfterSubjectChange prev s (UnitsFetchResult.failure e)).requests = 1 := by
  intro prev s e hs
  unfold unitsAfterSubjectChange
  rw [if_neg hs]
  exact ⟨rfl, List.cons_ne_nil _ _, rfl⟩

/-- Concrete instantiation of `fetchUnits_failure_no_retry`: a first
selection (empty previous list) whose fetch fails ends with an empty unit
list, a log entry, and a single request. -/
theorem fetchUnits_failure_no_retry_witness :
    (unitsAfterSubjectChange [] "S1" (UnitsFetchResult.failure "Network Error")).units = [] ∧
    (unitsAfterSubjectChange [] "S1" (UnitsFetchResult.failure "Network Error")).logs ≠ [] ∧
    (unitsAfterSubjectChange [] "S1" (UnitsFetchResult.failure "Network Error")).requests = 1 :=
  fetchUnits_failure_no_retry [] "S1" "Network Error" (by decide)

/-- Embeds the success-path state update of `updateStatus` in `App.tsx`:
`setFeedbacks(prev => prev.map(f => f._id === id ? { ...f, status } : f))`. -/
def applyStatusUpdate (l : List Feedback) (id status : String) : List Feedback :=
  l.map (fun f => if f._id == id then { f with status := status } else f)

/-- Embeds `updateStatus` as seen by the feedback list state: when the
`PATCH /feedback/:id/status` request succeeds the map above runs; when it
fails the catch block only logs and toasts, leaving the state untouched. -/
def updateStatus (l : List Feedback) (id status : String)
    (requestSucceeded : Bool) : List Feedback :=
  if requestSucceeded then applyStatusUpdate l id status else l

/-- C10: a failed update leaves the feedback list entirely unchanged; a
successful update preserves the length and, position by position, leaves
every item whose `_id` differs from the target untouched and rewrites only
the `status` field of items whose `_id` matches, preserving all their other
fields. -/
theorem updateStatus_frame :
    (∀ (l : List Feedback) (id status : String), updateStatus l id status false = l) ∧
    (∀ (l : List Feedback) (id status : String),
       (updateStatus l id status true).length = l.length) ∧
    (∀ (l : List Feedback) (id status : String) (i : Nat) (f g : Feedback),
       l[i]? = some f → (updateStatus l id status true)[i]? = some g →
       (f._id ≠ id → g = f) ∧
       (f._id = id → g.status = status ∧ g._id = f._id ∧ g.userId = f.userId ∧
         g.questionId = f.questionId ∧ g.feedback = f.feedback ∧
         g.createdAt = f.createdAt)) := by
  refine ⟨fun l id status => rfl, fun l id status => ?_, ?_⟩
  · unfold updateStatus applyStatusUpdate
    rw [if_pos rfl, List.length_map]
  · intro l id status i f g hf hg
    unfold updateStatus applyStatusUpdate at hg
    rw [if_pos rfl, List.getElem?_map, hf] at hg
    simp only [Option.map_some', Option.some_inj] at hg
    constructor
    · intro hne
      rw [← hg, if_neg (by simpa using hne)]
    · intro heq
      rw [← hg, if_pos (by simpa using heq)]
      exact ⟨rfl, rfl, rfl, rfl, rfl, rfl⟩

/-- Concrete instantiation of `updateStatus_frame`: resolving feedback `F1`
in a two-item list rewrites only its status and leaves the other item as it
was. -/
theorem updateStatus_frame_witness :
    ((updateStatus [fbPending, fbResolved] "F1" "resolved" true)[0]?.map Feedback.status
       = some "resolved") ∧
    (updateStatus [fbPending, fbResolved] "F1" "resolved" true)[1]? = some fbResolved := by
  have h0 := updateStatus_frame.2.2 [fbPending, fbResolved] "F1" "resolved" 0 fbPending
    { fbPending with status := "resolved" } rfl (by decide)
  have h1 := updateStatus_frame.2.2 [fbPending, fbResolved] "F1" "resolved" 1 fbResolved
    fbResolved rfl (by decide)
  refine ⟨?_, ?_⟩
  · have hs := (h0.2 rfl).1
    have : (updateStatus [fbPending, fbResolved] "F1" "resolved" true)[0]?
        = some { fbPending with status := "resolved" } := by decide
    rw [this]
    exact congrArg some hs
  · exact by decide
